import Mathlib

/-!
# PreludeScript (EventStore.Projections.v8Integration)

A shallow embedding of `PreludeScript.cpp`: the prelude runner `try_run`, the
template builder `get_template`, the cancellable-region guard and the two
script-visible callbacks `log_callback` and `load_module_callback`.

The scripting engine and the host are collaborators.  What they answer during
one operation is given by an `Engine` and a `Host` record; every theorem
quantifies over all such records, so it holds whatever the engine and the host
do.  Everything the code does to the outside world (guard checks, script
invocations, handler calls, writes of the last-error slot, the diagnostic
print) is appended, in program order, to the `trace` of the instance.
-/

set_option linter.unusedVariables false

namespace js1

/-- Status codes returned to the host by the public operations. -/
inductive Status
  | S_OK
  | S_ERROR
  | S_TERMINATED
  deriving DecidableEq, Repr

/-- Script values, as far as the code inspects them.  Objects and functions are
references (an identity); their properties live in the engine. -/
inductive Value
  | undefined
  | null
  | boolean (b : Bool)
  | number (n : Int)
  | string (s : String)
  | object (id : Nat)
  | function (id : Nat)
  deriving DecidableEq, Repr

/-- A `v8::Handle<v8::Value>`: `none` is the empty handle (`IsEmpty()`). -/
abbrev Handle := Option Value

/-- `v8::Value::IsFunction`. -/
def Value.IsFunction : Value → Bool
  | .function _ => true
  | _ => false

/-- `v8::Value::IsObject`: functions are objects too. -/
def Value.IsObject : Value → Bool
  | .object _ => true
  | .function _ => true
  | _ => false

/-- `v8::Value::IsString`. -/
def Value.IsString : Value → Bool
  | .string _ => true
  | _ => false

/-- A `v8::ObjectTemplate`: the properties set on it, in the order of the
`Set` calls.  The name is kept as the handle that was passed. -/
abbrev ObjectTemplate := List (Handle × Handle)

/-- `v8::ObjectTemplate::New()`. -/
def ObjectTemplate.New : ObjectTemplate := []

/-- `v8::ObjectTemplate::Set(name, value)`. -/
def ObjectTemplate.Set (t : ObjectTemplate) (name value : Handle) : ObjectTemplate :=
  t ++ [(name, value)]

/-- What a script throws with `v8::ThrowException`: an `Error` object built
from a message (`v8::Exception::Error`) or a bare string value. -/
inductive Thrown
  | error (message : String)
  | string (message : String)
  deriving DecidableEq, Repr

/-- The outcome of a script-invocable native function. -/
inductive CallbackResult
  | threw (e : Thrown)
  | returned (h : Handle)
  deriving DecidableEq, Repr

/-- A call that running script code makes into one of the two native
functions installed by `create_global_template`. -/
inductive CallbackCall
  | log (args : List Handle)
  | load_module (args : List Handle)
  deriving DecidableEq, Repr

/-- What one invocation of script code produces: the native callbacks it made
while running, the handle it returned (empty when there is no value) and the
message of the exception the surrounding `v8::TryCatch` holds, if any. -/
structure ScriptOutcome where
  callbacks : List CallbackCall
  result : Handle
  exception : Option String
  deriving DecidableEq, Repr

/-- The scripting engine, as seen by one operation. -/
structure Engine where
  /-- The object `get_context()->Global()`. -/
  Global : Handle
  /-- Running the compiled prelude script. -/
  Run : ScriptOutcome
  /-- The call `f->Call(recv, argc, argv)`. -/
  Call : Value → Handle → Int → List Handle → ScriptOutcome
  /-- The elements of the array `obj->GetPropertyNames()`. -/
  GetPropertyNames : Value → List Handle
  /-- The property read `obj->Get(key)`. -/
  Get : Value → Handle → Handle
  /-- The conversion `ToString` used by `v8::String::Value` (`none`: it fails). -/
  ToString : Value → Option String
  /-- The answer of `v8::V8::IsExecutionTerminating()` after the script call. -/
  IsExecutionTerminating : Bool

/-- The host callbacks, as they answer during one operation.  Module handles
are pointers: `0` is `NULL`. -/
structure Host where
  enter_cancellable_region_callback : Bool
  exit_cancellable_region_callback : Bool
  load_module_handler : Option String → Nat
  /-- The method `ModuleScript::get_module_object` of the module behind a handle. -/
  get_module_object : Nat → Handle

/-- Everything the code does to the outside world, in program order. -/
inductive Event
  | enter_cancellable_region
  | exit_cancellable_region
  | printf (text : String)
  | run_script
  | Call (f : Value) (recv : Handle) (argc : Int) (argv : List Handle)
  | set_last_error (message : String)
  | log_handler (message : Option String)
  | load_module_handler (module_name : Option String)
  deriving DecidableEq, Repr

/-- The state of a `PreludeScript` instance. -/
structure PreludeScript where
  /-- The slot `global_template_factory` (a persistent handle; `none`: empty). -/
  global_template_factory : Handle
  /-- The last-error slot (`none`: nothing was ever written). -/
  last_error : Option String
  trace : List Event
  deriving DecidableEq, Repr

/-- The narrowing `(int)` of a `size_t`: two's complement on 32 bits. -/
def int_cast (n : Nat) : Int :=
  if n % 2 ^ 32 < 2 ^ 31 then (n % 2 ^ 32 : Nat) else ((n % 2 ^ 32 : Nat) : Int) - 2 ^ 32

/-- Append one event to the trace of the instance. -/
def PreludeScript.emit (p : PreludeScript) (e : Event) : PreludeScript :=
  { p with trace := p.trace ++ [e] }

/-- Modelled from the spec: `set_last_error(message)` of the base class
`CompiledScript` (not part of this source file) stores the text in the
last-error slot. -/
def set_last_error (message : String) (p : PreludeScript) : PreludeScript :=
  { p with last_error := some message, trace := p.trace ++ [Event.set_last_error message] }

/-- Modelled from the spec: `set_last_error(is_error, try_catch)` of the base
class `CompiledScript` (not part of this source file) "returns whether an
exception was actually captured"; a captured exception is stored, rendered to
text, in the last-error slot. -/
def set_last_error_try_catch (is_error : Bool) (try_catch : Option String)
    (p : PreludeScript) : Bool × PreludeScript :=
  match try_catch with
  | some message => (true, set_last_error message p)
  | none => (false, p)

/-- Modelled from the spec: `enter_cancellable_region` (declared in the header,
not part of this source file) asks the host's enter check. -/
def enter_cancellable_region (host : Host) (p : PreludeScript) : Bool × PreludeScript :=
  (host.enter_cancellable_region_callback, p.emit Event.enter_cancellable_region)

/-- `PreludeScript::exit_cancellable_region`. -/
def exit_cancellable_region (eng : Engine) (host : Host) (p : PreludeScript) :
    Bool × PreludeScript :=
  let p := if eng.IsExecutionTerminating then p.emit (Event.printf "Terminating!") else p
  (host.exit_cancellable_region_callback, p.emit Event.exit_cancellable_region)

/-- `v8::Arguments::operator[]`: `undefined` beyond the arguments passed. -/
def Arguments_get (args : List Handle) (i : Nat) : Handle :=
  if i < args.length then args.getD i none else some Value.undefined

/-- The constructor `v8::String::Value(handle)`: the text of the value, through
`ToString`; `none` is the `NULL` buffer. -/
def String_Value (eng : Engine) : Handle → Option String
  | none => none
  | some (Value.string s) => some s
  | some v => eng.ToString v

/-- `PreludeScript::load_module`. -/
def load_module (host : Host) (module_name : Option String) (p : PreludeScript) :
    Nat × PreludeScript :=
  let module_handle := host.load_module_handler module_name
  (module_handle, p.emit (Event.load_module_handler module_name))

/-- `PreludeScript::log_callback`; `prelude` is the instance bound as the
callback's data. -/
def log_callback (eng : Engine) (args : List Handle) (prelude : PreludeScript) :
    CallbackResult × PreludeScript :=
  if args.length ≠ 1 then
    (.threw (.error "The 'log' handler expects 1 argument"), prelude)
  else if (Arguments_get args 0).isNone then
    (.threw (.error "The 'log' handler argument cannot be empty"), prelude)
  else
    let message := String_Value eng (Arguments_get args 0)
    (.returned (some Value.undefined), prelude.emit (Event.log_handler message))

/-- `PreludeScript::load_module_callback`; `prelude` is the instance bound as
the callback's data. -/
def load_module_callback (eng : Engine) (host : Host) (args : List Handle)
    (prelude : PreludeScript) : CallbackResult × PreludeScript :=
  if args.length ≠ 1 then
    (.threw (.error "The 'load_module' handler expects 1 argument"), prelude)
  else
    match Arguments_get args 0 with
    | none => (.threw (.error "The 'load_module' handler argument cannot be empty"), prelude)
    | some v =>
      if !v.IsString then
        (.threw (.error "The 'load_module' handler argument must be a string"), prelude)
      else
        let module_name := String_Value eng (some v)
        let (module, prelude) := load_module host module_name prelude
        if module = 0 then
          (.threw (.string "Cannot load module"), prelude)
        else
          (.returned (host.get_module_object module), prelude)

/-- The native callbacks made by running script code, in order; what they
return goes back to the script. -/
def run_callbacks (eng : Engine) (host : Host) : List CallbackCall → PreludeScript → PreludeScript
  | [], p => p
  | CallbackCall.log args :: cs, p => run_callbacks eng host cs (log_callback eng args p).2
  | CallbackCall.load_module args :: cs, p =>
    run_callbacks eng host cs (load_module_callback eng host args p).2

/-- Modelled from the spec: `run_script(context)` of the base class
`CompiledScript` (not part of this source file) invokes the compiled prelude
with no arguments in the given context and hands back what it returned. -/
def run_script (eng : Engine) (host : Host) (p : PreludeScript) : Handle × PreludeScript :=
  let p := run_callbacks eng host eng.Run.callbacks (p.emit Event.run_script)
  (eng.Run.result, p)

/-- `PreludeScript::try_run`. -/
def try_run (eng : Engine) (host : Host) (p : PreludeScript) : Status × PreludeScript :=
  -- global_template_factory.Dispose(); global_template_factory.Clear();
  let p := { p with global_template_factory := none }
  let (entered, p) := enter_cancellable_region host p
  if !entered then (Status.S_TERMINATED, p)
  else
    let (prelude_result, p) := run_script eng host p
    let (exited, p) := exit_cancellable_region eng host p
    if !exited then (Status.S_TERMINATED, p)
    else
      match prelude_result with
      | none => (Status.S_ERROR, set_last_error "Prelude script did not return any value" p)
      | some v =>
        if !v.IsFunction then
          (Status.S_ERROR, set_last_error "Prelude script must return a function" p)
        else
          (Status.S_OK, { p with global_template_factory := some v })

/-- The loop of `get_template` over the array of property names, from index
`i` on.  The index is an `unsigned int` and the array length fits one, so the
increment never wraps. -/
def copy_properties (eng : Engine) (prelude_result_object : Value)
    (global_property_names : List Handle) (i : Nat) (result : ObjectTemplate) : ObjectTemplate :=
  if i < global_property_names.length then
    -- global_property_names->Get(i).As<v8::String>(): the cast is unchecked, the handle is kept
    let global_property_name := global_property_names.getD i (some Value.undefined)
    let global_property_value := eng.Get prelude_result_object global_property_name
    copy_properties eng prelude_result_object global_property_names (i + 1)
      (result.Set global_property_name global_property_value)
  else result
termination_by global_property_names.length - i

/-- What `get_template` hands back: the status, the caller's output slot
`result` after the call, and the instance. -/
structure TemplateOutcome where
  status : Status
  result : Option ObjectTemplate
  prelude : PreludeScript
  deriving DecidableEq, Repr

/-- `PreludeScript::get_template`.  `result` is the caller's output slot
before the call.  `none`: the call goes through an empty factory handle, and
the behaviour is undefined. -/
def get_template (eng : Engine) (host : Host) (prelude_arguments : List Handle)
    (result : Option ObjectTemplate) (p : PreludeScript) : Option TemplateOutcome :=
  let global := eng.Global
  let (entered, p) := enter_cancellable_region host p
  if !entered then some ⟨Status.S_TERMINATED, result, p⟩
  else
    match p.global_template_factory with
    | none => none
    | some f =>
      let argc := int_cast prelude_arguments.length
      let call := eng.Call f global argc prelude_arguments
      let p := run_callbacks eng host call.callbacks
        (p.emit (Event.Call f global argc prelude_arguments))
      let prelude_result := call.result
      let (exited, p) := exit_cancellable_region eng host p
      if !exited then some ⟨Status.S_TERMINATED, result, p⟩
      else
        let (captured, p) := set_last_error_try_catch prelude_result.isNone call.exception p
        if captured then some ⟨Status.S_ERROR, result, p⟩
        else
          match prelude_result with
          | none =>
            some ⟨Status.S_ERROR, result,
              set_last_error "Global template factory did not return any value" p⟩
          | some v =>
            if !v.IsObject then
              some ⟨Status.S_ERROR, result,
                set_last_error "Prelude script must return a function" p⟩
            else
              let global_property_names := eng.GetPropertyNames v
              some ⟨Status.S_OK,
                some (copy_properties eng v global_property_names 0 ObjectTemplate.New), p⟩

/-! ## Reading the trace -/

/-- The events a run of native callbacks appends to the trace. -/
def callback_trace (eng : Engine) (host : Host) (cs : List CallbackCall) : List Event :=
  (run_callbacks eng host cs ⟨none, none, []⟩).trace

/-- The events of one exit check: the diagnostic print when the engine is
terminating, then the check itself. -/
def exit_trace (eng : Engine) : List Event :=
  (if eng.IsExecutionTerminating then [Event.printf "Terminating!"] else []) ++
    [Event.exit_cancellable_region]

/-- The events appended to the trace between two states of the instance. -/
def events_since (before after : PreludeScript) : List Event :=
  after.trace.drop before.trace.length

/-- A call of one of the two host handlers (log handler, module resolver). -/
def Event.isHandlerCall : Event → Bool
  | .log_handler _ => true
  | .load_module_handler _ => true
  | _ => false

/-- An invocation of script code: the prelude or the stored factory. -/
def Event.isInvocation : Event → Bool
  | .run_script => true
  | .Call _ _ _ _ => true
  | _ => false

/-- A guard check or an invocation of script code. -/
def Event.isGuardOrInvocation : Event → Bool
  | .enter_cancellable_region => true
  | .exit_cancellable_region => true
  | e => e.isInvocation

/-- A write of the last-error slot. -/
def Event.isErrorWrite : Event → Bool
  | .set_last_error _ => true
  | _ => false

/-! ## Concrete engines and hosts -/

/-- An engine whose prelude evaluates to `v`, whose factory returns `r`, and
whose only object with properties is `{a: 1, b: "x"}` (object `7`). -/
def sampleEngine (v r : Handle) : Engine where
  Global := some (Value.object 0)
  Run := ⟨[], v, none⟩
  Call := fun _ _ _ _ => ⟨[CallbackCall.log [some (Value.string "built")]], r, none⟩
  GetPropertyNames := fun o =>
    if o = Value.object 7 then [some (Value.string "a"), some (Value.string "b")] else []
  Get := fun o k =>
    if o = Value.object 7 then
      if k = some (Value.string "a") then some (Value.number 1)
      else if k = some (Value.string "b") then some (Value.string "x")
      else some Value.undefined
    else some Value.undefined
  ToString := fun _ => some "[object]"
  IsExecutionTerminating := false

/-- A host whose guard answers `enter` and `exit` and which knows the one
module "present" (handle `4`, value object `9`). -/
def sampleHost (enter exit : Bool) : Host where
  enter_cancellable_region_callback := enter
  exit_cancellable_region_callback := exit
  load_module_handler := fun n => if n = some "present" then 4 else 0
  get_module_object := fun m => if m = 4 then some (Value.object 9) else none

/-- An argument vector of 2^31 handles, each holding `undefined`. -/
def hugeArguments : List Handle := List.replicate 2147483648 (some Value.undefined)

/-- A fresh instance: no factory, no error, nothing done yet. -/
def freshPrelude : PreludeScript := ⟨none, none, []⟩

/-- An instance that holds the factory `function 3` from an earlier run. -/
def readyPrelude : PreludeScript := ⟨some (Value.function 3), none, []⟩

/-- An instance whose last-error slot holds the text of an earlier failure. -/
def failedPrelude : PreludeScript :=
  ⟨some (Value.function 3), some "earlier error", [Event.set_last_error "earlier error"]⟩

/-! ## Frame lemmas -/

theorem log_callback_frame (eng : Engine) (args : List Handle) (p : PreludeScript) :
    (log_callback eng args p).2 =
      { p with trace := p.trace ++ (log_callback eng args ⟨none, none, []⟩).2.trace } := by
  unfold log_callback
  split_ifs <;> simp [PreludeScript.emit]

theorem load_module_callback_frame (eng : Engine) (host : Host) (args : List Handle)
    (p : PreludeScript) :
    (load_module_callback eng host args p).2 =
      { p with trace := p.trace ++ (load_module_callback eng host args ⟨none, none, []⟩).2.trace } := by
  unfold load_module_callback
  split_ifs
  · simp
  · cases h : Arguments_get args 0 with
    | none => simp
    | some v =>
      simp only [load_module, PreludeScript.emit]
      split_ifs <;> simp

theorem run_callbacks_frame (eng : Engine) (host : Host) (cs : List CallbackCall) :
    ∀ p : PreludeScript,
      run_callbacks eng host cs p = { p with trace := p.trace ++ callback_trace eng host cs } := by
  induction cs with
  | nil => intro p; simp [run_callbacks, callback_trace]
  | cons c cs ih =>
    intro p
    cases c with
    | log args =>
      simp only [run_callbacks, callback_trace]
      rw [ih, log_callback_frame, ih (log_callback eng args ⟨none, none, []⟩).2]
      simp [List.append_assoc]
    | load_module args =>
      simp only [run_callbacks, callback_trace]
      rw [ih, load_module_callback_frame, ih (load_module_callback eng host args ⟨none, none, []⟩).2]
      simp [List.append_assoc]

theorem events_since_append (before after : PreludeScript) (l : List Event)
    (h : after.trace = before.trace ++ l) : events_since before after = l := by
  simp [events_since, h]

theorem callback_trace_handlers (eng : Engine) (host : Host) (cs : List CallbackCall) :
    ∀ e ∈ callback_trace eng host cs, e.isHandlerCall = true := by
  induction cs with
  | nil => simp [callback_trace, run_callbacks]
  | cons c cs ih =>
    intro e he
    cases c with
    | log args =>
      simp only [callback_trace, run_callbacks] at he
      rw [run_callbacks_frame] at he
      simp only [List.mem_append] at he
      rcases he with he | he
      · unfold log_callback at he
        split_ifs at he <;> simp [PreludeScript.emit] at he
        subst he; rfl
      · exact ih e he
    | load_module args =>
      simp only [callback_trace, run_callbacks] at he
      rw [run_callbacks_frame] at he
      simp only [List.mem_append] at he
      rcases he with he | he
      · unfold load_module_callback at he
        split_ifs at he
        · simp at he
        · cases h : Arguments_get args 0 with
          | none => simp [h] at he
          | some v =>
            simp only [h, load_module, PreludeScript.emit] at he
            split_ifs at he <;> simp at he <;> (subst he; rfl)
      · exact ih e he

theorem filter_callback_trace (eng : Engine) (host : Host) (cs : List CallbackCall) :
    (callback_trace eng host cs).filter Event.isGuardOrInvocation = [] := by
  rw [List.filter_eq_nil_iff]
  intro e he
  have := callback_trace_handlers eng host cs e he
  cases e <;> simp_all [Event.isHandlerCall, Event.isGuardOrInvocation, Event.isInvocation]

theorem exit_cancellable_region_eq (eng : Engine) (host : Host) (p : PreludeScript) :
    exit_cancellable_region eng host p =
      (host.exit_cancellable_region_callback, { p with trace := p.trace ++ exit_trace eng }) := by
  unfold exit_cancellable_region exit_trace
  cases eng.IsExecutionTerminating <;> simp [PreludeScript.emit]

theorem filter_exit_trace (eng : Engine) :
    (exit_trace eng).filter Event.isGuardOrInvocation = [Event.exit_cancellable_region] := by
  unfold exit_trace
  cases eng.IsExecutionTerminating <;> simp [Event.isGuardOrInvocation, Event.isInvocation]

theorem copy_properties_eq (eng : Engine) (o : Value) (names : List Handle) :
    ∀ (n i : Nat) (t : ObjectTemplate), names.length - i = n →
      copy_properties eng o names i t = t ++ (names.drop i).map (fun k => (k, eng.Get o k)) := by
  intro n
  induction n with
  | zero =>
    intro i t h
    unfold copy_properties
    have hi : ¬ i < names.length := by omega
    have hd : names.drop i = [] := List.drop_eq_nil_of_le (by omega)
    simp [hi, hd]
  | succ n ih =>
    intro i t h
    unfold copy_properties
    have hi : i < names.length := by omega
    have hd : names.drop i = names.getD i (some Value.undefined) :: names.drop (i + 1) := by
      rw [List.getD_eq_getElem _ _ hi]
      exact List.drop_eq_getElem_cons hi
    simp only [hi, if_true]
    rw [ih (i + 1) _ (by omega), hd]
    simp [ObjectTemplate.Set]

/-- What `get_template` does once it is entered with a factory stored: the
call made, the status, the output slot and the instance, in closed form. -/
theorem get_template_entered (eng : Engine) (host : Host) (args : List Handle)
    (slot : Option ObjectTemplate) (p : PreludeScript) (f : Value)
    (hfac : p.global_template_factory = some f)
    (henter : host.enter_cancellable_region_callback = true) :
    ∃ r, get_template eng host args slot p = some r ∧
      ∃ tail, r.prelude.trace = p.trace ++ ([Event.enter_cancellable_region,
          Event.Call f eng.Global (int_cast args.length) args] ++
          callback_trace eng host (eng.Call f eng.Global (int_cast args.length) args).callbacks ++
          exit_trace eng ++ tail) ∧ ∀ e ∈ tail, e.isErrorWrite = true := by
  cases hx : host.exit_cancellable_region_callback
  · simp [get_template, enter_cancellable_region, henter, PreludeScript.emit, hfac,
        exit_cancellable_region_eq, run_callbacks_frame, hx]
  · cases he : (eng.Call f eng.Global (int_cast args.length) args).exception with
    | some m =>
      simp [get_template, enter_cancellable_region, henter, PreludeScript.emit, hfac,
        exit_cancellable_region_eq, run_callbacks_frame, hx, he, set_last_error_try_catch,
        set_last_error, Event.isErrorWrite]
    | none =>
      cases hr : (eng.Call f eng.Global (int_cast args.length) args).result with
      | none =>
        simp [get_template, enter_cancellable_region, henter, PreludeScript.emit, hfac,
          exit_cancellable_region_eq, run_callbacks_frame, hx, he, hr, set_last_error_try_catch,
          set_last_error, Event.isErrorWrite]
      | some v =>
        cases ho : v.IsObject <;>
        simp [get_template, enter_cancellable_region, henter, PreludeScript.emit, hfac,
          exit_cancellable_region_eq, run_callbacks_frame, hx, he, hr, ho,
          set_last_error_try_catch, set_last_error, Event.isErrorWrite]

theorem filter_error_writes (tail : List Event) (h : ∀ e ∈ tail, e.isErrorWrite = true) :
    tail.filter Event.isGuardOrInvocation = [] ∧ tail.filter Event.isInvocation = [] := by
  constructor <;>
  · rw [List.filter_eq_nil_iff]
    intro e he
    have := h e he
    cases e <;> simp_all [Event.isErrorWrite, Event.isGuardOrInvocation, Event.isInvocation]

/-- The same reading of `try_run`: the events of one run, once entered. -/
theorem try_run_entered (eng : Engine) (host : Host) (p : PreludeScript)
    (henter : host.enter_cancellable_region_callback = true) :
    ∃ tail, (try_run eng host p).2.trace = p.trace ++ ([Event.enter_cancellable_region,
        Event.run_script] ++ callback_trace eng host eng.Run.callbacks ++ exit_trace eng ++ tail) ∧
      ∀ e ∈ tail, e.isErrorWrite = true := by
  cases hx : host.exit_cancellable_region_callback
  · simp [try_run, enter_cancellable_region, henter, PreludeScript.emit, run_script,
      exit_cancellable_region_eq, run_callbacks_frame, hx]
  · cases hr : eng.Run.result with
    | none =>
      simp [try_run, enter_cancellable_region, henter, PreludeScript.emit, run_script,
        exit_cancellable_region_eq, run_callbacks_frame, hx, hr, set_last_error,
        Event.isErrorWrite]
    | some v =>
      cases hf : v.IsFunction <;>
      simp [try_run, enter_cancellable_region, henter, PreludeScript.emit, run_script,
        exit_cancellable_region_eq, run_callbacks_frame, hx, hr, hf, set_last_error,
        Event.isErrorWrite]

/-- The executions of `get_template` that have an outcome: those that are
denied entry and those that find a factory stored. -/
theorem get_template_isSome_iff (eng : Engine) (host : Host) (args : List Handle)
    (slot : Option ObjectTemplate) (p : PreludeScript) :
    (get_template eng host args slot p).isSome = true ↔
      (host.enter_cancellable_region_callback = false ∨
        p.global_template_factory.isSome = true) := by
  cases hn : host.enter_cancellable_region_callback
  · simp [get_template, enter_cancellable_region, PreludeScript.emit, hn]
  · cases hfac : p.global_template_factory with
    | none => simp [get_template, enter_cancellable_region, PreludeScript.emit, hn, hfac]
    | some f =>
      obtain ⟨r, hr, _⟩ := get_template_entered eng host args slot p f hfac hn
      simp [hr]

theorem int_cast_of_lt (n : Nat) (h : n < 2 ^ 31) : int_cast n = (n : Int) := by
  unfold int_cast
  have h1 : n % 2 ^ 32 = n := Nat.mod_eq_of_lt (by omega)
  rw [h1, if_pos h]

/-! ## The claims -/

/-- C1 (as stated, refuted).  A prelude that evaluates to the number `5`, with
both guard checks answering true, leaves the text "Prelude script must return
a function" in the last-error slot, which is not the text "prelude must return
a function". -/
theorem C1_counterexample :
    (sampleHost true true).enter_cancellable_region_callback = true ∧
    (sampleHost true true).exit_cancellable_region_callback = true ∧
    (sampleEngine (some (Value.number 5)) none).Run.result = some (Value.number 5) ∧
    (Value.number 5).IsFunction = false ∧
    (try_run (sampleEngine (some (Value.number 5)) none) (sampleHost true true)
      readyPrelude).2.last_error = some "Prelude script must return a function" ∧
    (try_run (sampleEngine (some (Value.number 5)) none) (sampleHost true true)
      readyPrelude).2.last_error ≠ some "prelude must return a function" := by
  decide

/-- C1 (amended).  From every state of the instance, also one that holds a
factory from an earlier run: when both guard checks answer true and the prelude
evaluates to a value that is not a function, `try_run` returns `S_ERROR`, the
last-error slot holds exactly "Prelude script must return a function", and the
factory slot is empty. -/
theorem try_run_non_function (eng : Engine) (host : Host) (p : PreludeScript) (v : Value)
    (henter : host.enter_cancellable_region_callback = true)
    (hexit : host.exit_cancellable_region_callback = true)
    (hrun : eng.Run.result = some v) (hv : v.IsFunction = false) :
    (try_run eng host p).1 = Status.S_ERROR ∧
    (try_run eng host p).2.last_error = some "Prelude script must return a function" ∧
    (try_run eng host p).2.global_template_factory = none := by
  simp [try_run, enter_cancellable_region, run_script, exit_cancellable_region_eq,
    run_callbacks_frame, set_last_error, PreludeScript.emit, henter, hexit, hrun, hv]

theorem try_run_non_function_witness :
    readyPrelude.global_template_factory = some (Value.function 3) ∧
    (try_run (sampleEngine (some (Value.string "no")) none) (sampleHost true true)
      readyPrelude).1 = Status.S_ERROR ∧
    (try_run (sampleEngine (some (Value.string "no")) none) (sampleHost true true)
      readyPrelude).2.last_error = some "Prelude script must return a function" ∧
    (try_run (sampleEngine (some (Value.string "no")) none) (sampleHost true true)
      readyPrelude).2.global_template_factory = none :=
  ⟨rfl, try_run_non_function (sampleEngine (some (Value.string "no")) none)
    (sampleHost true true) readyPrelude (Value.string "no") rfl rfl rfl rfl⟩

/-- The invocation made by `get_template` once it is entered with the factory
`f` stored: exactly one, of `f`, on the global object, with the argument
buffer as it was passed and the argument count narrowed to `int`. -/
theorem get_template_invocation (eng : Engine) (host : Host) (args : List Handle)
    (slot : Option ObjectTemplate) (p : PreludeScript) (f : Value)
    (hfac : p.global_template_factory = some f)
    (henter : host.enter_cancellable_region_callback = true) :
    ∃ r, get_template eng host args slot p = some r ∧
      (events_since p r.prelude).filter Event.isInvocation =
        [Event.Call f eng.Global (int_cast args.length) args] := by
  obtain ⟨r, hr, tail, htr, htail⟩ := get_template_entered eng host args slot p f hfac henter
  refine ⟨r, hr, ?_⟩
  rw [events_since_append p r.prelude _ htr]
  have h1 := callback_trace_handlers eng host
    (eng.Call f eng.Global (int_cast args.length) args).callbacks
  have h2 : (callback_trace eng host
      (eng.Call f eng.Global (int_cast args.length) args).callbacks).filter Event.isInvocation
      = [] := by
    rw [List.filter_eq_nil_iff]
    intro e he
    have := h1 e he
    cases e <;> simp_all [Event.isHandlerCall, Event.isInvocation]
  have h3 : (exit_trace eng).filter Event.isInvocation = [] := by
    unfold exit_trace
    cases eng.IsExecutionTerminating <;> simp [Event.isInvocation]
  simp [List.filter_append, h2, h3, (filter_error_writes tail htail).2, Event.isInvocation]

/-- C2 (as stated, refuted).  The prelude evaluates to the function `3` and
`try_run` stores it; `get_template` is then called with a vector of 2^31
arguments.  The factory is invoked once, but the argument count it is given is
the size narrowed to `int`, `-2147483648`, not the length of the vector. -/
theorem C2_counterexample :
    (try_run (sampleEngine (some (Value.function 3)) none) (sampleHost true true)
      freshPrelude).1 = Status.S_OK ∧
    (try_run (sampleEngine (some (Value.function 3)) none) (sampleHost true true)
      freshPrelude).2.global_template_factory = some (Value.function 3) ∧
    (get_template (sampleEngine none (some (Value.object 7))) (sampleHost true true)
      hugeArguments none
      (try_run (sampleEngine (some (Value.function 3)) none) (sampleHost true true)
        freshPrelude).2).map
      (fun r => (events_since (try_run (sampleEngine (some (Value.function 3)) none)
        (sampleHost true true) freshPrelude).2 r.prelude).filter Event.isInvocation) =
      some [Event.Call (Value.function 3) (some (Value.object 0)) (-2147483648) hugeArguments] ∧
    Event.Call (Value.function 3) (some (Value.object 0)) (-2147483648) hugeArguments ≠
      Event.Call (Value.function 3) (some (Value.object 0)) hugeArguments.length hugeArguments := by
  have hlen : hugeArguments.length = 2147483648 := List.length_replicate _ _
  have hcast : int_cast hugeArguments.length = -2147483648 := by
    rw [hlen]; decide
  refine ⟨by decide, by decide, ?_, ?_⟩
  · obtain ⟨r, hr, hinv⟩ := get_template_invocation (sampleEngine none (some (Value.object 7)))
      (sampleHost true true) hugeArguments none
      (try_run (sampleEngine (some (Value.function 3)) none) (sampleHost true true)
        freshPrelude).2 (Value.function 3) (by decide) rfl
    rw [hr, Option.map_some', hinv, hcast]
    rfl
  · intro h
    injection h with _ _ h3 _
    rw [hlen] at h3
    exact absurd h3 (by decide)

/-- C2 (amended).  For every callable `f`: when both guard checks answer true
and the prelude evaluates to `f`, `try_run` returns `S_OK` and stores `f` in
the factory slot; and for every argument vector of fewer than 2^31 handles, a
following `get_template` that is let in by the enter check returns and invokes
script code exactly once: `f`, on the global object of the context, with the
arguments as passed (same count, same order). -/
theorem try_run_stores_factory_then_get_template_invokes_it (eng : Engine) (host : Host)
    (p : PreludeScript) (f : Value)
    (henter : host.enter_cancellable_region_callback = true)
    (hexit : host.exit_cancellable_region_callback = true)
    (hrun : eng.Run.result = some f) (hf : f.IsFunction = true) :
    (try_run eng host p).1 = Status.S_OK ∧
    (try_run eng host p).2.global_template_factory = some f ∧
    ∀ (eng2 : Engine) (host2 : Host) (args : List Handle) (slot : Option ObjectTemplate),
      host2.enter_cancellable_region_callback = true → args.length < 2 ^ 31 →
      ∃ r, get_template eng2 host2 args slot (try_run eng host p).2 = some r ∧
        (events_since (try_run eng host p).2 r.prelude).filter Event.isInvocation =
          [Event.Call f eng2.Global args.length args] := by
  have h1 : (try_run eng host p).1 = Status.S_OK ∧
      (try_run eng host p).2.global_template_factory = some f := by
    simp [try_run, enter_cancellable_region, run_script, exit_cancellable_region_eq,
      run_callbacks_frame, PreludeScript.emit, henter, hexit, hrun, hf]
  refine ⟨h1.1, h1.2, ?_⟩
  intro eng2 host2 args slot henter2 hlen
  obtain ⟨r, hr, hinv⟩ := get_template_invocation eng2 host2 args slot _ f h1.2 henter2
  exact ⟨r, hr, by rw [hinv, int_cast_of_lt _ hlen]⟩

/-- C2, at a concrete input: the factory `function 3` is stored and then
invoked with the two arguments `1` and `"p"`. -/
theorem try_run_stores_factory_then_get_template_invokes_it_witness :
    (try_run (sampleEngine (some (Value.function 3)) none) (sampleHost true true)
      readyPrelude).1 = Status.S_OK ∧
    (try_run (sampleEngine (some (Value.function 3)) none) (sampleHost true true)
      readyPrelude).2.global_template_factory = some (Value.function 3) ∧
    ∃ r, get_template (sampleEngine none (some (Value.object 7))) (sampleHost true false)
        [some (Value.number 1), some (Value.string "p")] none
        (try_run (sampleEngine (some (Value.function 3)) none) (sampleHost true true)
          readyPrelude).2 = some r ∧
      (events_since (try_run (sampleEngine (some (Value.function 3)) none)
          (sampleHost true true) readyPrelude).2 r.prelude).filter Event.isInvocation =
        [Event.Call (Value.function 3) (some (Value.object 0)) 2
          [some (Value.number 1), some (Value.string "p")]] :=
  have h := try_run_stores_factory_then_get_template_invokes_it
    (sampleEngine (some (Value.function 3)) none) (sampleHost true true) readyPrelude
    (Value.function 3) rfl rfl rfl rfl
  ⟨h.1, h.2.1, h.2.2 (sampleEngine none (some (Value.object 7))) (sampleHost true false)
    [some (Value.number 1), some (Value.string "p")] none rfl (by decide)⟩

/-- C3.  With a factory stored, both guard checks answering true and no
exception raised: for every object `O` the factory returns, `get_template`
returns `S_OK` and the output slot holds a new template with exactly one
entry per enumerated property name of `O`, in enumeration order, each name
with the value `O` holds for it. -/
theorem get_template_copies_properties (eng : Engine) (host : Host) (args : List Handle)
    (slot : Option ObjectTemplate) (p : PreludeScript) (f O : Value)
    (hfac : p.global_template_factory = some f)
    (henter : host.enter_cancellable_region_callback = true)
    (hexit : host.exit_cancellable_region_callback = true)
    (hres : (eng.Call f eng.Global (int_cast args.length) args).result = some O)
    (hexc : (eng.Call f eng.Global (int_cast args.length) args).exception = none)
    (hobj : O.IsObject = true) :
    ∃ q, get_template eng host args slot p =
      some ⟨Status.S_OK, some ((eng.GetPropertyNames O).map (fun k => (k, eng.Get O k))), q⟩ := by
  have hcopy := copy_properties_eq eng O (eng.GetPropertyNames O) _ 0 [] rfl
  simp only [List.drop_zero, List.nil_append] at hcopy
  simp [get_template, enter_cancellable_region, henter, PreludeScript.emit, hfac,
    exit_cancellable_region_eq, run_callbacks_frame, hexit, hres, hexc, hobj,
    set_last_error_try_catch, hcopy, ObjectTemplate.New]

/-- C3, at the object `{a: 1, b: "x"}`: the template is `{a: 1, b: "x"}`. -/
theorem get_template_copies_properties_witness :
    (sampleEngine none (some (Value.object 7))).GetPropertyNames (Value.object 7) =
      [some (Value.string "a"), some (Value.string "b")] ∧
    ∃ q, get_template (sampleEngine none (some (Value.object 7))) (sampleHost true true) []
        none readyPrelude =
      some ⟨Status.S_OK, some [(some (Value.string "a"), some (Value.number 1)),
        (some (Value.string "b"), some (Value.string "x"))], q⟩ :=
  ⟨rfl, get_template_copies_properties (sampleEngine none (some (Value.object 7)))
    (sampleHost true true) [] none readyPrelude (Value.function 3) (Value.object 7)
    rfl rfl rfl rfl rfl rfl⟩

/-- C4.  With a factory stored and both guard checks answering true: for
every value the factory returns that is not an object, `get_template` returns
`S_ERROR` and the caller's output slot is what it was before the call. -/
theorem get_template_non_object (eng : Engine) (host : Host) (args : List Handle)
    (slot : Option ObjectTemplate) (p : PreludeScript) (f v : Value)
    (hfac : p.global_template_factory = some f)
    (henter : host.enter_cancellable_region_callback = true)
    (hexit : host.exit_cancellable_region_callback = true)
    (hres : (eng.Call f eng.Global (int_cast args.length) args).result = some v)
    (hv : v.IsObject = false) :
    ∃ q, get_template eng host args slot p = some ⟨Status.S_ERROR, slot, q⟩ := by
  cases hexc : (eng.Call f eng.Global (int_cast args.length) args).exception <;>
  simp [get_template, enter_cancellable_region, henter, PreludeScript.emit, hfac,
    exit_cancellable_region_eq, run_callbacks_frame, hexit, hres, hexc, hv,
    set_last_error_try_catch]

/-- C4, at a factory that returns the number `42`, the output slot unset. -/
theorem get_template_non_object_witness :
    ∃ q, get_template (sampleEngine none (some (Value.number 42))) (sampleHost true true)
      [some Value.null] none readyPrelude = some ⟨Status.S_ERROR, none, q⟩ :=
  get_template_non_object (sampleEngine none (some (Value.number 42))) (sampleHost true true)
    [some Value.null] none readyPrelude (Value.function 3) (Value.number 42) rfl rfl rfl rfl rfl

/-- C5.  For `try_run` and for `get_template`, from every state and for every
input: when the enter check answers false the operation returns
`S_TERMINATED`, and the enter check is the only thing it did: no script code
is invoked, no handler is called, nothing else is appended to the trace. -/
theorem enter_denied_terminates (eng : Engine) (host : Host) (p : PreludeScript)
    (args : List Handle) (slot : Option ObjectTemplate)
    (henter : host.enter_cancellable_region_callback = false) :
    try_run eng host p =
      (Status.S_TERMINATED, ⟨none, p.last_error, p.trace ++ [Event.enter_cancellable_region]⟩) ∧
    get_template eng host args slot p =
      some ⟨Status.S_TERMINATED, slot,
        ⟨p.global_template_factory, p.last_error,
          p.trace ++ [Event.enter_cancellable_region]⟩⟩ := by
  simp [try_run, get_template, enter_cancellable_region, PreludeScript.emit, henter]

/-- C5, at a host that denies entry: a prelude and a factory that would log
are not run. -/
theorem enter_denied_terminates_witness :
    try_run (sampleEngine (some (Value.function 3)) none) (sampleHost false true) readyPrelude =
      (Status.S_TERMINATED, ⟨none, none, [Event.enter_cancellable_region]⟩) ∧
    get_template (sampleEngine (some (Value.function 3)) none) (sampleHost false true)
        [some Value.null] none readyPrelude =
      some ⟨Status.S_TERMINATED, none,
        ⟨some (Value.function 3), none, [Event.enter_cancellable_region]⟩⟩ :=
  enter_denied_terminates (sampleEngine (some (Value.function 3)) none) (sampleHost false true)
    readyPrelude [some Value.null] none rfl

/-- C6.  For `try_run` and for `get_template` (with a factory stored), whatever
the script call produced: when the enter check answers true and the exit check
answers false the operation returns `S_TERMINATED`; `try_run` leaves the
factory slot empty and `get_template` leaves the output slot as it was. -/
theorem exit_denied_terminates (eng : Engine) (host : Host) (p : PreludeScript)
    (args : List Handle) (slot : Option ObjectTemplate)
    (henter : host.enter_cancellable_region_callback = true)
    (hexit : host.exit_cancellable_region_callback = false) :
    (try_run eng host p).1 = Status.S_TERMINATED ∧
    (try_run eng host p).2.global_template_factory = none ∧
    ∀ f, p.global_template_factory = some f →
      ∃ q, get_template eng host args slot p = some ⟨Status.S_TERMINATED, slot, q⟩ := by
  refine ⟨?_, ?_, ?_⟩
  · simp [try_run, enter_cancellable_region, run_script, exit_cancellable_region_eq,
      run_callbacks_frame, PreludeScript.emit, henter, hexit]
  · simp [try_run, enter_cancellable_region, run_script, exit_cancellable_region_eq,
      run_callbacks_frame, PreludeScript.emit, henter, hexit]
  · intro f hfac
    simp [get_template, enter_cancellable_region, henter, PreludeScript.emit, hfac,
      exit_cancellable_region_eq, run_callbacks_frame, hexit]

/-- C6, at a host that denies exit while the prelude evaluates to a function
and the factory returns an object. -/
theorem exit_denied_terminates_witness :
    (try_run (sampleEngine (some (Value.function 3)) (some (Value.object 7)))
      (sampleHost true false) readyPrelude).1 = Status.S_TERMINATED ∧
    (try_run (sampleEngine (some (Value.function 3)) (some (Value.object 7)))
      (sampleHost true false) readyPrelude).2.global_template_factory = none ∧
    ∃ q, get_template (sampleEngine (some (Value.function 3)) (some (Value.object 7)))
      (sampleHost true false) [] none readyPrelude = some ⟨Status.S_TERMINATED, none, q⟩ :=
  have h := exit_denied_terminates (sampleEngine (some (Value.function 3)) (some (Value.object 7)))
    (sampleHost true false) readyPrelude [] none rfl rfl
  ⟨h.1, h.2.1, h.2.2 (Value.function 3) rfl⟩

/-- C7.  Every call of `try_run` and every call of `get_template` that returns
`S_TERMINATED` leaves the last-error slot as it was before the call, and
every call that returns `S_ERROR` has written the last-error slot during the
call: the slot holds the text of a write that is among the events of the
call. -/
theorem terminated_keeps_last_error_and_error_writes_it (eng : Engine) (host : Host)
    (p : PreludeScript) (args : List Handle) (slot : Option ObjectTemplate) :
    ((try_run eng host p).1 = Status.S_TERMINATED →
      (try_run eng host p).2.last_error = p.last_error) ∧
    ((try_run eng host p).1 = Status.S_ERROR →
      ∃ m, (try_run eng host p).2.last_error = some m ∧
        Event.set_last_error m ∈ events_since p (try_run eng host p).2) ∧
    ∀ r, get_template eng host args slot p = some r →
      (r.status = Status.S_TERMINATED → r.prelude.last_error = p.last_error) ∧
      (r.status = Status.S_ERROR →
        ∃ m, r.prelude.last_error = some m ∧
          Event.set_last_error m ∈ events_since p r.prelude) := by
  refine ⟨?_, ?_, ?_⟩
  · cases hn : host.enter_cancellable_region_callback <;>
    cases hx : host.exit_cancellable_region_callback <;>
    cases hr : eng.Run.result with
    | none =>
      simp [try_run, enter_cancellable_region, run_script, exit_cancellable_region_eq,
        run_callbacks_frame, PreludeScript.emit, set_last_error, hn, hx, hr]
    | some v =>
      cases hf : v.IsFunction <;>
      simp [try_run, enter_cancellable_region, run_script, exit_cancellable_region_eq,
        run_callbacks_frame, PreludeScript.emit, set_last_error, hn, hx, hr, hf]
  · cases hn : host.enter_cancellable_region_callback <;>
    cases hx : host.exit_cancellable_region_callback <;>
    cases hr : eng.Run.result with
    | none =>
      simp [try_run, enter_cancellable_region, run_script, exit_cancellable_region_eq,
        run_callbacks_frame, PreludeScript.emit, set_last_error, events_since, hn, hx, hr]
    | some v =>
      cases hf : v.IsFunction <;>
      simp [try_run, enter_cancellable_region, run_script, exit_cancellable_region_eq,
        run_callbacks_frame, PreludeScript.emit, set_last_error, events_since, hn, hx, hr, hf]
  · intro r hr
    cases hn : host.enter_cancellable_region_callback
    · simp [get_template, enter_cancellable_region, PreludeScript.emit, hn] at hr
      subst hr
      simp
    · cases hfac : p.global_template_factory with
      | none => simp [get_template, enter_cancellable_region, PreludeScript.emit, hn, hfac] at hr
      | some f =>
        cases hx : host.exit_cancellable_region_callback <;>
        cases he : (eng.Call f eng.Global (int_cast args.length) args).exception <;>
        cases hv : (eng.Call f eng.Global (int_cast args.length) args).result with
        | none =>
          simp [get_template, enter_cancellable_region, PreludeScript.emit, hn, hfac,
            exit_cancellable_region_eq, run_callbacks_frame, hx, he, hv,
            set_last_error_try_catch, set_last_error] at hr
          subst hr
          simp [events_since]
        | some v =>
          cases ho : v.IsObject <;>
          · simp [get_template, enter_cancellable_region, PreludeScript.emit, hn, hfac,
              exit_cancellable_region_eq, run_callbacks_frame, hx, he, hv, ho,
              set_last_error_try_catch, set_last_error] at hr
            subst hr
            simp [events_since]

/-- C7, at an instance that holds an earlier error: a terminated `try_run` and
a terminated `get_template` keep it, a failing `try_run` and a failing
`get_template` replace it by what they wrote. -/
theorem terminated_keeps_last_error_and_error_writes_it_witness :
    ((try_run (sampleEngine (some (Value.function 3)) none) (sampleHost true false)
        failedPrelude).1 = Status.S_TERMINATED ∧
      (try_run (sampleEngine (some (Value.function 3)) none) (sampleHost true false)
        failedPrelude).2.last_error = some "earlier error") ∧
    ((try_run (sampleEngine (some (Value.number 5)) none) (sampleHost true true)
        failedPrelude).1 = Status.S_ERROR ∧
      ∃ m, (try_run (sampleEngine (some (Value.number 5)) none) (sampleHost true true)
          failedPrelude).2.last_error = some m ∧
        Event.set_last_error m ∈ events_since failedPrelude
          (try_run (sampleEngine (some (Value.number 5)) none) (sampleHost true true)
            failedPrelude).2) ∧
    (∃ r, get_template (sampleEngine none (some (Value.object 7))) (sampleHost true false) []
        none failedPrelude = some r ∧ r.status = Status.S_TERMINATED ∧
      r.prelude.last_error = some "earlier error") ∧
    (∃ r, get_template (sampleEngine none (some (Value.number 42))) (sampleHost true true) []
        none failedPrelude = some r ∧ r.status = Status.S_ERROR ∧
      ∃ m, r.prelude.last_error = some m ∧
        Event.set_last_error m ∈ events_since failedPrelude r.prelude) :=
  ⟨⟨rfl, (terminated_keeps_last_error_and_error_writes_it
      (sampleEngine (some (Value.function 3)) none) (sampleHost true false) failedPrelude []
      none).1 rfl⟩,
    ⟨rfl, (terminated_keeps_last_error_and_error_writes_it
      (sampleEngine (some (Value.number 5)) none) (sampleHost true true) failedPrelude []
      none).2.1 rfl⟩,
    ⟨_, rfl, rfl, ((terminated_keeps_last_error_and_error_writes_it
      (sampleEngine none (some (Value.object 7))) (sampleHost true false) failedPrelude []
      none).2.2 _ rfl).1 rfl⟩,
    ⟨_, rfl, rfl, ((terminated_keeps_last_error_and_error_writes_it
      (sampleEngine none (some (Value.number 42))) (sampleHost true true) failedPrelude []
      none).2.2 _ rfl).2 rfl⟩⟩

/-- C10.  In every execution of `try_run`, and in every execution of
`get_template` that is denied entry or finds a factory stored, whatever the
outcome: the guard checks and script invocations of the call are, in order,
the enter check alone when it answers false, and the enter check, one script
invocation and the exit check when it answers true.  So enter is checked
exactly once, exit exactly once if enter answered true and not at all
otherwise, and the exit check comes after the script invocation. -/
theorem guard_pairing (eng : Engine) (host : Host) (p : PreludeScript) (args : List Handle)
    (slot : Option ObjectTemplate) :
    (events_since p (try_run eng host p).2).filter Event.isGuardOrInvocation =
      (if host.enter_cancellable_region_callback then
        [Event.enter_cancellable_region, Event.run_script, Event.exit_cancellable_region]
      else [Event.enter_cancellable_region]) ∧
    ∀ f, (host.enter_cancellable_region_callback = false ∨ p.global_template_factory = some f) →
      ∃ r, get_template eng host args slot p = some r ∧
        (events_since p r.prelude).filter Event.isGuardOrInvocation =
          (if host.enter_cancellable_region_callback then
            [Event.enter_cancellable_region,
              Event.Call f eng.Global (int_cast args.length) args,
              Event.exit_cancellable_region]
          else [Event.enter_cancellable_region]) := by
  cases hn : host.enter_cancellable_region_callback
  · refine ⟨?_, ?_⟩
    · simp [try_run, enter_cancellable_region, PreludeScript.emit, hn, events_since,
        Event.isGuardOrInvocation]
    · intro f _
      simp [get_template, enter_cancellable_region, PreludeScript.emit, hn, events_since,
        Event.isGuardOrInvocation]
  · refine ⟨?_, ?_⟩
    · obtain ⟨tail, htr, htail⟩ := try_run_entered eng host p hn
      rw [events_since_append p _ _ htr]
      simp [List.filter_append, filter_callback_trace, filter_exit_trace,
        (filter_error_writes tail htail).1, Event.isGuardOrInvocation, Event.isInvocation]
    · intro f hf
      have hfac : p.global_template_factory = some f := by
        rcases hf with hf | hf
        · exact absurd hf (by simp)
        · exact hf
      obtain ⟨r, hr, tail, htr, htail⟩ := get_template_entered eng host args slot p f hfac hn
      refine ⟨r, hr, ?_⟩
      rw [events_since_append p _ _ htr]
      simp [List.filter_append, filter_callback_trace, filter_exit_trace,
        (filter_error_writes tail htail).1, Event.isGuardOrInvocation, Event.isInvocation]

/-- C10, at a prelude that fails (it evaluates to a number) and at a factory
whose call logs and returns an object. -/
theorem guard_pairing_witness :
    (events_since failedPrelude (try_run (sampleEngine (some (Value.number 5)) none)
        (sampleHost true true) failedPrelude).2).filter Event.isGuardOrInvocation =
      [Event.enter_cancellable_region, Event.run_script, Event.exit_cancellable_region] ∧
    ∃ r, get_template (sampleEngine (some (Value.number 5)) (some (Value.object 7)))
        (sampleHost true true) [some Value.null] none failedPrelude = some r ∧
      (events_since failedPrelude r.prelude).filter Event.isGuardOrInvocation =
        [Event.enter_cancellable_region,
          Event.Call (Value.function 3) (some (Value.object 0)) 1 [some Value.null],
          Event.exit_cancellable_region] :=
  ⟨(guard_pairing (sampleEngine (some (Value.number 5)) none) (sampleHost true true)
      failedPrelude [] none).1,
    (guard_pairing (sampleEngine (some (Value.number 5)) (some (Value.object 7)))
      (sampleHost true true) failedPrelude [some Value.null] none).2 (Value.function 3)
      (Or.inr rfl)⟩

end js1
